import Mathlib

/-!
Verification of the cart/order/payment core of the bookstore backend.

The definitions below are a shallow embedding of the JavaScript source:

* `src/src/models/Payment.js` (the file also holds the `Cart` and `Product`
  schemas with the `isDiscountActive` / `finalPrice` virtuals and the
  `getCurrentPrice` / `getShippingCost` methods),
* `src/src/models/Order.js` (also holds the `Coupon` schema and its
  `isValid` method),
* `src/src/controllers/cartController.js` (`recalculateCart`, `addToCart`),
* `src/src/controllers/orderController.js` (`createOrder`, `cancelOrder`),
* `src/src/controllers/paymentController.js` (`verifyPayment`),
* the coupon controller (`validateCoupon`).

Conventions: JavaScript numbers are modelled as `ℚ` (money, rates) or `Int`
(stocks, quantities, which the validation middleware constrains to integers);
dates are epoch milliseconds (`Int`); a JavaScript value that may be
`undefined`/`NaN` is an `Option`; a thrown `AppError` is the `Except.error`
branch.  The document store is modelled as an id-indexed partial map; a
Mongoose `save` is a point update of that map.
-/

namespace BookstoreSpec

/-- JavaScript `Math.round(x * 100) / 100`, the repository's 2-decimal money
rounding (`Math.round` is `⌊x + 1/2⌋`). -/
def round2 (q : ℚ) : ℚ := ((⌊q * 100 + 1/2⌋ : ℤ) : ℚ) / 100

/-- JavaScript `Math.round`, used by the coupon-preview endpoint for its
whole-currency-unit rounding. -/
def jsRound (q : ℚ) : ℤ := ⌊q + 1/2⌋

/-- The `{ shippingCost, taxPercentage }` sub-records `Product.retail` and
`Product.wholesale` (Product schema; both fields default to 0, so the
JavaScript `|| 0` fallbacks on them are the identity). -/
structure RoleRates where
  shippingCost : ℚ
  taxPercentage : ℚ
  deriving DecidableEq, Repr

/-- One entry of `Product.variants` (Product schema): a per-colour stock
pool. -/
structure Variant where
  colorName : String
  size : String
  stock : Int
  deriving DecidableEq, Repr

/-- The fields of the Product schema used by the pricing/stock core.
`discountStartDate` / `discountEndDate` are optional dates. -/
structure Product where
  pid : Nat
  name : String
  price : ℚ
  stock : Int
  wholesalePrice : ℚ
  discountPercentage : ℚ
  discountStartDate : Option Int
  discountEndDate : Option Int
  retail : RoleRates
  wholesale : RoleRates
  variants : List Variant
  deriving DecidableEq, Repr

/-- The `isDiscountActive` virtual of the Product schema:
`discountPercentage <= 0` kills the discount, a present start date strictly in
the future kills it, a present end date strictly in the past kills it. -/
def Product.isDiscountActive (p : Product) (now : Int) : Bool :=
  if p.discountPercentage ≤ 0 then false
  else if (match p.discountStartDate with
           | some s => decide (now < s)
           | none => false) then false
  else if (match p.discountEndDate with
           | some e => decide (e < now)
           | none => false) then false
  else true

/-- The `finalPrice` virtual of the Product schema: the 2-decimal discounted
price while the discount window is active, the raw price otherwise. -/
def Product.finalPrice (p : Product) (now : Int) : ℚ :=
  if p.isDiscountActive now then round2 (p.price * (1 - p.discountPercentage / 100))
  else p.price

/-- The `getCurrentPrice(userRole)` method of the Product schema: resellers get
the wholesale price when one is set (`> 0`), everyone else gets
`finalPrice`. -/
def Product.getCurrentPrice (p : Product) (role : String) (now : Int) : ℚ :=
  if role = "reseller" then
    if 0 < p.wholesalePrice then p.wholesalePrice else p.price
  else p.finalPrice now

/-- The `getShippingCost(userRole)` method of the Product schema. -/
def Product.getShippingCost (p : Product) (role : String) : ℚ :=
  if role = "reseller" then p.wholesale.shippingCost else p.retail.shippingCost

/-- Discount activity as the spec words it (claim C2): `discountPercentage > 0`
and the timestamp lies within `[discountStartDate, discountEndDate]`, a
missing bound being unconstrained on that side.  Spec-side definition, to be
compared with the source-side `Product.isDiscountActive`. -/
def specDiscountActive (p : Product) (now : Int) : Bool :=
  decide (0 < p.discountPercentage)
    && (match p.discountStartDate with
        | some s => decide (s ≤ now)
        | none => true)
    && (match p.discountEndDate with
        | some e => decide (now ≤ e)
        | none => true)

theorem isDiscountActive_eq_spec (p : Product) (now : Int) :
    p.isDiscountActive now = specDiscountActive p now := by
  unfold Product.isDiscountActive specDiscountActive
  by_cases hdp : p.discountPercentage ≤ 0
  · simp [hdp, not_lt.mpr hdp]
  · have hdp' : 0 < p.discountPercentage := not_le.mp hdp
    rcases p.discountStartDate with _ | s <;> rcases p.discountEndDate with _ | e
    · simp [hdp, hdp']
    · by_cases h2 : e < now <;> simp [hdp, hdp', h2, not_le, not_lt] <;> omega
    · by_cases h1 : now < s <;> simp [hdp, hdp', h1, not_le, not_lt] <;> omega
    · by_cases h1 : now < s <;> by_cases h2 : e < now <;>
        simp [hdp, hdp', h1, h2, not_le, not_lt] <;> omega

/-- Claim C2 (price resolution).  For every product snapshot, caller role and
timestamp, `getCurrentPrice` resolves to the wholesale price for resellers
when `wholesalePrice > 0` and to `price` otherwise; for any other role it is
the 2-decimal discounted price exactly when `discountPercentage > 0` and the
timestamp lies inside `[discountStartDate, discountEndDate]` (a missing bound
is unconstrained), and the raw price otherwise. -/
theorem getCurrentPrice_resolution (p : Product) (role : String) (now : Int) :
    p.getCurrentPrice role now =
      if role = "reseller" then
        (if 0 < p.wholesalePrice then p.wholesalePrice else p.price)
      else if specDiscountActive p now then
        round2 (p.price * (1 - p.discountPercentage / 100))
      else p.price := by
  unfold Product.getCurrentPrice Product.finalPrice
  rw [isDiscountActive_eq_spec]

/-! ## Claim C1: stock non-negativity over `addToCart` / `createOrder`

A single product is tracked through an arbitrary sequence of the two
stock-relevant request handlers, projected onto the fields they touch: the
product's `stock` and the quantity the user's cart already holds for the
matching `(product, size, color)` line.  `addToCart` never writes to the
product; `createOrder` deducts after its guard. -/

/-- Errors raised (`AppError` / unhandled exceptions) by the embedded
handlers. -/
inductive ApiError
  | notFound
  | insufficientStock
  | badQuantity
  | codUnavailable
  | itemsRequired
  | forbidden
  | cannotCancel
  | verificationFailed
  | invalidCoupon
  | minOrderNotMet
  | couponNotApplicable
  | nullDeref
  deriving DecidableEq, Repr

/-- The product/cart projection used for claim C1: the product's `stock` and
the quantity already in the cart line for the same product+size+color. -/
structure ItemState where
  stock : Int
  cartQty : Int
  deriving DecidableEq, Repr

/-- `addToCart` (cartController.js 92-167), projected on stock and the
matching line's quantity: reject a quantity below 1, reject
(`Insufficient stock`) when `stock < existingQty + quantity`, otherwise merge
the quantity into the line.  The product's stock is never written. -/
def addItemStep (s : ItemState) (qty : Int) : Except ApiError ItemState :=
  if qty < 1 then .error .badQuantity
  else if s.stock < s.cartQty + qty then .error .insufficientStock
  else .ok { s with cartQty := s.cartQty + qty }

/-- The per-item body of `createOrder` (orderController.js 41-69), projected on
stock: reject (`Insufficient stock`) when `stock < quantity`, otherwise deduct
`stock -= quantity` and persist. -/
def orderItemStep (s : ItemState) (qty : Int) : Except ApiError ItemState :=
  if s.stock < qty then .error .insufficientStock
  else .ok { s with stock := s.stock - qty }

/-- One request of a sequential run against the product: an `addToCart` call
or one item of a `createOrder` call. -/
inductive StockOp
  | add (qty : Int)
  | order (qty : Int)
  deriving DecidableEq, Repr

/-- Execute one request; a rejected request leaves the state unchanged (the
thrown `AppError` aborts the handler before any write). -/
def stepOp (s : ItemState) (op : StockOp) : ItemState :=
  match op with
  | .add q => match addItemStep s q with
    | .ok s' => s'
    | .error _ => s
  | .order q => match orderItemStep s q with
    | .ok s' => s'
    | .error _ => s

/-- Run a sequence of requests. -/
def runOps (s : ItemState) (ops : List StockOp) : ItemState := ops.foldl stepOp s

theorem stepOp_invariant (s : ItemState) (op : StockOp)
    (h : 0 ≤ s.stock ∧ 0 ≤ s.cartQty) :
    0 ≤ (stepOp s op).stock ∧ 0 ≤ (stepOp s op).cartQty := by
  obtain ⟨hs, hc⟩ := h
  cases op with
  | add q =>
    unfold stepOp addItemStep
    by_cases h1 : q < 1
    · simp [h1]
      exact ⟨hs, hc⟩
    · by_cases h2 : s.stock < s.cartQty + q
      · simp [h1, h2]
        exact ⟨hs, hc⟩
      · simp [h1, h2]
        exact ⟨hs, by omega⟩
  | order q =>
    unfold stepOp orderItemStep
    by_cases h1 : s.stock < q
    · simp [h1]
      exact ⟨hs, hc⟩
    · simp [h1]
      exact ⟨by omega, hc⟩

theorem runOps_invariant (s : ItemState) (ops : List StockOp)
    (h : 0 ≤ s.stock ∧ 0 ≤ s.cartQty) :
    0 ≤ (runOps s ops).stock ∧ 0 ≤ (runOps s ops).cartQty := by
  induction ops generalizing s with
  | nil => exact h
  | cons op rest ih =>
    have := stepOp_invariant s op h
    simpa [runOps, List.foldl_cons] using ih (stepOp s op) this

/-- Claim C1 (stock non-negativity).  Starting from `stock = N ≥ 0` and an
empty cart line, any sequence of `addToCart` / `createOrder` requests leaves
the product's stock non-negative; moreover, at any reachable state, a request
whose quantity exceeds the available stock is rejected with
`Insufficient stock` and leaves the stock (indeed the whole state)
unchanged — both for a `createOrder` item and for an `addToCart` call. -/
theorem stock_nonneg (N : Int) (hN : 0 ≤ N) (ops : List StockOp) :
    0 ≤ (runOps ⟨N, 0⟩ ops).stock ∧
    ∀ q, (runOps ⟨N, 0⟩ ops).stock < q →
      (orderItemStep (runOps ⟨N, 0⟩ ops) q = .error .insufficientStock ∧
        stepOp (runOps ⟨N, 0⟩ ops) (.order q) = runOps ⟨N, 0⟩ ops) ∧
      (1 ≤ q →
        addItemStep (runOps ⟨N, 0⟩ ops) q = .error .insufficientStock ∧
        stepOp (runOps ⟨N, 0⟩ ops) (.add q) = runOps ⟨N, 0⟩ ops) := by
  obtain ⟨hs, hc⟩ := runOps_invariant ⟨N, 0⟩ ops ⟨hN, le_refl 0⟩
  refine ⟨hs, fun q hq => ?_⟩
  have horder : orderItemStep (runOps ⟨N, 0⟩ ops) q = .error .insufficientStock := by
    unfold orderItemStep
    simp [hq]
  have hadd : 1 ≤ q → addItemStep (runOps ⟨N, 0⟩ ops) q = .error .insufficientStock := by
    intro h1
    unfold addItemStep
    have : ¬ q < 1 := by omega
    have h2 : (runOps ⟨N, 0⟩ ops).stock < (runOps ⟨N, 0⟩ ops).cartQty + q := by omega
    simp [this, h2]
  refine ⟨⟨horder, ?_⟩, fun h1 => ⟨hadd h1, ?_⟩⟩
  · unfold stepOp
    simp [horder]
  · unfold stepOp
    simp [hadd h1]

/-- Witness for C1 at a concrete run: start at stock 5, add 2 to the cart,
order 3; stock stays non-negative and a subsequent over-stock request (q = 7)
is rejected without a state change. -/
theorem stock_nonneg_witness :
    (0 : Int) ≤ 5 ∧
    (0 ≤ (runOps ⟨5, 0⟩ [.add 2, .order 3]).stock ∧
      ∀ q, (runOps ⟨5, 0⟩ [.add 2, .order 3]).stock < q →
        (orderItemStep (runOps ⟨5, 0⟩ [.add 2, .order 3]) q = .error .insufficientStock ∧
          stepOp (runOps ⟨5, 0⟩ [.add 2, .order 3]) (.order q) = runOps ⟨5, 0⟩ [.add 2, .order 3]) ∧
        (1 ≤ q →
          addItemStep (runOps ⟨5, 0⟩ [.add 2, .order 3]) q = .error .insufficientStock ∧
          stepOp (runOps ⟨5, 0⟩ [.add 2, .order 3]) (.add q) = runOps ⟨5, 0⟩ [.add 2, .order 3])) :=
  ⟨by decide, stock_nonneg 5 (by decide) [.add 2, .order 3]⟩

/-! ## Claim C3: cart totals after `recalculateCart`

`recalculateCart` (cartController.js 8-73) first drops lines whose populated
product is gone, then per line re-resolves the unit price and the per-role
shipping, caches `price` (raw) and `shippingAmount` (2-decimal rounded) on the
line, and accumulates the raw subtotal, raw shipping and item count.  The
cart-level fields round the raw subtotal and the raw shipping separately and
sum the two rounded values. -/

/-- A cart line as seen by `recalculateCart` after `populate`: the product
reference is resolved, `none` marking a deleted product. -/
structure CartLine where
  product : Option Product
  quantity : Int
  price : ℚ
  shippingAmount : ℚ
  taxAmount : ℚ
  deriving DecidableEq, Repr

/-- The cart document: lines plus the cached aggregate fields. -/
structure Cart where
  items : List CartLine
  subtotal : ℚ
  totalShipping : ℚ
  totalTax : ℚ
  totalAmount : ℚ
  totalItems : Int
  deriving DecidableEq, Repr

/-- The unit price resolved inside the `recalculateCart` loop
(cartController.js 28-37): resellers get the wholesale price when set, every
other role gets `getCurrentPrice('user')`. -/
def recalcUnitPrice (role : String) (now : Int) (p : Product) : ℚ :=
  if role = "reseller" then
    (if 0 < p.wholesalePrice then p.wholesalePrice else p.price)
  else p.getCurrentPrice "user" now

/-- The per-role shipping rate used by the loop (cartController.js 44-51). -/
def recalcShipRate (role : String) (p : Product) : ℚ :=
  if role = "reseller" then p.wholesale.shippingCost else p.retail.shippingCost

/-- The raw (unrounded) line subtotal `unitPrice * qty` accumulated into
`subtotal`. -/
def lineSubtotal (role : String) (now : Int) (l : CartLine) : ℚ :=
  match l.product with
  | some p => recalcUnitPrice role now p * (l.quantity : ℚ)
  | none => 0

/-- The raw (unrounded) line shipping `shippingCost * qty` accumulated into
`totalShipping`; the line itself caches its 2-decimal rounding. -/
def lineRawShip (role : String) (l : CartLine) : ℚ :=
  match l.product with
  | some p => recalcShipRate role p * (l.quantity : ℚ)
  | none => 0

/-- The per-line update of the loop: re-resolve `price`, cache the rounded
`shippingAmount`, zero the tax. -/
def recalcLine (role : String) (now : Int) (l : CartLine) : CartLine :=
  match l.product with
  | some p =>
    { l with price := recalcUnitPrice role now p,
             shippingAmount := round2 (recalcShipRate role p * (l.quantity : ℚ)),
             taxAmount := 0 }
  | none => l

/-- `recalculateCart(cart, userRole)` (cartController.js 8-73). -/
def recalculateCart (role : String) (now : Int) (c : Cart) : Cart :=
  let live := c.items.filter (fun l => l.product.isSome)
  { items := live.map (recalcLine role now),
    subtotal := round2 ((live.map (lineSubtotal role now)).sum),
    totalShipping := round2 ((live.map (lineRawShip role)).sum),
    totalTax := 0,
    totalItems := (live.map (fun l => l.quantity)).sum,
    totalAmount := round2 (round2 ((live.map (lineSubtotal role now)).sum)
      + round2 ((live.map (lineRawShip role)).sum)) }

theorem recalcLine_product (role : String) (now : Int) (l : CartLine) :
    (recalcLine role now l).product = l.product := by
  rcases l with ⟨prod, q, pr, sa, ta⟩
  cases prod <;> rfl

theorem recalcLine_quantity (role : String) (now : Int) (l : CartLine) :
    (recalcLine role now l).quantity = l.quantity := by
  rcases l with ⟨prod, q, pr, sa, ta⟩
  cases prod <;> rfl

theorem recalcLine_price (role : String) (now : Int) (l : CartLine) (p : Product)
    (h : l.product = some p) :
    (recalcLine role now l).price = recalcUnitPrice role now p := by
  rcases l with ⟨prod, q, pr, sa, ta⟩
  cases prod with
  | none => simp at h
  | some p0 =>
    simp only [Option.some.injEq] at h
    subst h
    rfl

/-- Claim C3, amended to what the code computes.  After `recalculateCart`, the
cart's `totalAmount` is `round2 (subtotal + totalShipping)` where `subtotal`
and `totalShipping` are each obtained by 2-decimal-rounding the corresponding
raw sums over the surviving lines (`Σ unitPrice·qty`, resp. the raw per-line
shipping `Σ shippingRate·qty`) separately; `totalItems` is the sum of the
quantities and `totalTax` is 0.  The raw shipping sum differs from the sum of
the lines' cached (already rounded) `shippingAmount` fields, which is why the
claim's single-rounding equation fails (see the counterexample). -/
theorem recalculateCart_totals (role : String) (now : Int) (c : Cart) :
    (recalculateCart role now c).totalAmount =
      round2 ((recalculateCart role now c).subtotal + (recalculateCart role now c).totalShipping)
    ∧ (recalculateCart role now c).subtotal =
      round2 ((((recalculateCart role now c).items.map (fun l => l.price * (l.quantity : ℚ)))).sum)
    ∧ (recalculateCart role now c).totalShipping =
      round2 ((((recalculateCart role now c).items.map (lineRawShip role))).sum)
    ∧ (recalculateCart role now c).totalItems =
      (((recalculateCart role now c).items.map (fun l => l.quantity))).sum
    ∧ (recalculateCart role now c).totalTax = 0 := by
  refine ⟨rfl, ?_, ?_, ?_, rfl⟩
  · show round2 (((c.items.filter (fun l => l.product.isSome)).map (lineSubtotal role now)).sum)
      = round2 ((((c.items.filter (fun l => l.product.isSome)).map (recalcLine role now)).map
          (fun l => l.price * (l.quantity : ℚ))).sum)
    rw [List.map_map]
    congr 1
    congr 1
    apply List.map_congr_left
    intro l hl
    have hsome : l.product.isSome := by
      simpa using (List.mem_filter.mp hl).2
    obtain ⟨p, hp⟩ := Option.isSome_iff_exists.mp hsome
    simp [Function.comp, lineSubtotal, hp, recalcLine_quantity,
      recalcLine_price role now l p hp]
  · show round2 (((c.items.filter (fun l => l.product.isSome)).map (lineRawShip role)).sum)
      = round2 ((((c.items.filter (fun l => l.product.isSome)).map (recalcLine role now)).map
          (lineRawShip role)).sum)
    rw [List.map_map]
    congr 1
    congr 1
    apply List.map_congr_left
    intro l hl
    simp [Function.comp, lineRawShip, recalcLine_product, recalcLine_quantity]
  · show ((c.items.filter (fun l => l.product.isSome)).map (fun l => l.quantity)).sum
      = (((c.items.filter (fun l => l.product.isSome)).map (recalcLine role now)).map
          (fun l => l.quantity)).sum
    rw [List.map_map]
    congr 1
    apply List.map_congr_left
    intro l _
    simp [Function.comp, recalcLine_quantity]

/-- A product used by the C3 counterexample: price 0, retail shipping cost
1/250 (0.004 currency units). -/
def subCentProduct (i : Nat) : Product :=
  { pid := i, name := "p", price := 0, stock := 10, wholesalePrice := 0,
    discountPercentage := 0, discountStartDate := none, discountEndDate := none,
    retail := ⟨1/250, 0⟩, wholesale := ⟨0, 0⟩, variants := [] }

/-- A cart line holding one unit of `subCentProduct i`. -/
def subCentLine (i : Nat) : CartLine :=
  { product := some (subCentProduct i), quantity := 1, price := 0,
    shippingAmount := 0, taxAmount := 0 }

/-- A cart with three sub-cent-shipping lines. -/
def subCentCart : Cart :=
  { items := [subCentLine 1, subCentLine 2, subCentLine 3], subtotal := 0,
    totalShipping := 0, totalTax := 0, totalAmount := 0, totalItems := 0 }

/-- Counterexample to claim C3 as stated: for the three-line cart above,
after `recalculateCart` the cart's `totalAmount` is 0.01 (the raw shipping sum
3·0.004 rounds to 0.01) while the claim's formula
`round2 (Σ line.price·qty + Σ line.shippingAmount)` evaluates to 0 (each
line's cached `shippingAmount` was already rounded to 0). -/
theorem recalculateCart_claim_counterexample :
    (recalculateCart "user" 0 subCentCart).totalAmount ≠
      round2 ((((recalculateCart "user" 0 subCentCart).items.map
          (fun l => l.price * (l.quantity : ℚ))).sum)
        + (((recalculateCart "user" 0 subCentCart).items.map
          (fun l => l.shippingAmount)).sum)) := by
  have huser : ("user" : String) ≠ "reseller" := by decide
  norm_num [recalculateCart, subCentCart, subCentLine, subCentProduct, recalcLine,
    recalcUnitPrice, recalcShipRate, lineSubtotal, lineRawShip, huser,
    Product.getCurrentPrice, Product.finalPrice, Product.isDiscountActive, round2]

/-! ## Claims C4 and C5: `verifyPayment`

`verifyPayment` (paymentController.js 60-163) recomputes the HMAC-SHA256
signature over `razorpay_order_id + "|" + razorpay_payment_id`.  On a match it
dedupes the payment ledger by `transactionId`, marks the order
completed/processing, stores the payment details, and best-effort sends a
confirmation email when `emailNotifications.confirmationSent` is still false
(the flag itself is never written in this flow).  On a mismatch it appends a
`failed` ledger entry and throws, never touching the order.  The HMAC itself
is kept abstract as a function parameter. -/

/-- A row of the payment ledger (Payment schema). -/
structure PaymentDoc where
  orderRef : Nat
  userRef : Nat
  amount : ℚ
  paymentMethod : String
  paymentStatus : String
  transactionId : Option String
  failureReason : Option String
  rzpOrderId : String
  rzpPaymentId : String
  rzpSignature : String
  deriving DecidableEq, Repr

/-- The `paymentDetails` block written on the order by a successful
verification. -/
structure PaymentDetails where
  razorpayOrderId : String
  razorpayPaymentId : String
  razorpaySignature : String
  transactionId : String
  deriving DecidableEq, Repr

/-- The order fields read or written by `verifyPayment`. -/
structure VerifyOrder where
  oid : Nat
  userRef : Nat
  totalAmount : ℚ
  paymentStatus : String
  status : String
  paymentDetails : Option PaymentDetails
  confirmationSent : Bool
  deriving DecidableEq, Repr

/-- The state `verifyPayment` acts on: the loaded order, the payment ledger,
how many confirmation emails were attempted (`sendPaymentConfirmed` calls),
and how many confirmation notifications were recorded as sent (writes of
`emailNotifications.confirmationSent := true` — no code path inside
`verifyPayment` or `sendPaymentConfirmed` performs such a write). -/
structure VerifyState where
  order : VerifyOrder
  payments : List PaymentDoc
  emailAttempts : Nat
  sentRecorded : Nat
  deriving DecidableEq, Repr

/-- The request body of `POST /api/payments/verify`. -/
structure VerifyReq where
  rzpOrderId : String
  rzpPaymentId : String
  rzpSignature : String
  deriving DecidableEq, Repr

/-- The `failed` ledger entry appended on a signature mismatch
(paymentController.js 147-159); it carries no `transactionId`. -/
def failedLedgerEntry (uid : Nat) (req : VerifyReq) (s : VerifyState) : PaymentDoc :=
  { orderRef := s.order.oid, userRef := uid, amount := s.order.totalAmount,
    paymentMethod := "razorpay", paymentStatus := "failed",
    transactionId := none, failureReason := some "Invalid Signature",
    rzpOrderId := req.rzpOrderId, rzpPaymentId := req.rzpPaymentId,
    rzpSignature := req.rzpSignature }

/-- The `completed` ledger entry created when no entry with this
`transactionId` exists yet (paymentController.js 100-116). -/
def completedLedgerEntry (uid : Nat) (req : VerifyReq) (s : VerifyState) : PaymentDoc :=
  { orderRef := s.order.oid, userRef := uid, amount := s.order.totalAmount,
    paymentMethod := "razorpay", paymentStatus := "completed",
    transactionId := some req.rzpPaymentId, failureReason := none,
    rzpOrderId := req.rzpOrderId, rzpPaymentId := req.rzpPaymentId,
    rzpSignature := req.rzpSignature }

/-- `verifyPayment` (paymentController.js 60-163).  `hmac` abstracts
`HMAC-SHA256(RAZORPAY_KEY_SECRET, ·)`; the expected signature is computed over
`razorpay_order_id + "|" + razorpay_payment_id`. -/
def verifyPayment (hmac : String → String) (uid : Nat) (req : VerifyReq)
    (s : VerifyState) : Except ApiError Unit × VerifyState :=
  if req.rzpSignature = hmac (req.rzpOrderId ++ "|" ++ req.rzpPaymentId) then
    (.ok (),
      { order := { s.order with
          paymentStatus := "completed", status := "processing",
          paymentDetails :=
            some ⟨req.rzpOrderId, req.rzpPaymentId, req.rzpSignature, req.rzpPaymentId⟩ },
        payments :=
          match s.payments.find? (fun p => p.transactionId = some req.rzpPaymentId) with
          | some _ => s.payments
          | none => s.payments ++ [completedLedgerEntry uid req s],
        emailAttempts :=
          if s.order.confirmationSent then s.emailAttempts else s.emailAttempts + 1,
        sentRecorded := s.sentRecorded })
  else
    (.error .verificationFailed,
      { s with payments := s.payments ++ [failedLedgerEntry uid req s] })

/-- Claim C4 (payment verification idempotency).  Verifying the same valid
tuple twice against an order that has no ledger entry for the payment id yet
yields: both calls succeed, exactly one ledger entry for that
`gatewayPaymentId`, the order's `paymentStatus` ends at `completed`, and at
most one confirmation notification is recorded as sent.  (In fact none is:
this flow checks `emailNotifications.confirmationSent` but never sets it, so
the email is attempted on both calls; `sentRecorded` stays 0.) -/
theorem verifyPayment_idempotent (hmac : String → String) (uid : Nat)
    (req : VerifyReq) (s₀ : VerifyState)
    (hsig : req.rzpSignature = hmac (req.rzpOrderId ++ "|" ++ req.rzpPaymentId))
    (hfresh : s₀.payments.find? (fun p => p.transactionId = some req.rzpPaymentId) = none)
    (hsent : s₀.sentRecorded = 0) :
    (verifyPayment hmac uid req s₀).1 = .ok () ∧
    (verifyPayment hmac uid req (verifyPayment hmac uid req s₀).2).1 = .ok () ∧
    ((verifyPayment hmac uid req (verifyPayment hmac uid req s₀).2).2.payments.filter
        (fun p => p.transactionId = some req.rzpPaymentId)).length = 1 ∧
    (verifyPayment hmac uid req (verifyPayment hmac uid req s₀).2).2.order.paymentStatus
      = "completed" ∧
    (verifyPayment hmac uid req (verifyPayment hmac uid req s₀).2).2.sentRecorded ≤ 1 := by
  have hfilter₀ :
      s₀.payments.filter (fun p => p.transactionId = some req.rzpPaymentId) = [] := by
    apply List.filter_eq_nil_iff.mpr
    intro p hp
    simpa using List.find?_eq_none.mp hfresh p hp
  have e₁ : verifyPayment hmac uid req s₀ =
      (.ok (),
        { order := { s₀.order with
            paymentStatus := "completed", status := "processing",
            paymentDetails :=
              some ⟨req.rzpOrderId, req.rzpPaymentId, req.rzpSignature, req.rzpPaymentId⟩ },
          payments := s₀.payments ++ [completedLedgerEntry uid req s₀],
          emailAttempts :=
            if s₀.order.confirmationSent then s₀.emailAttempts else s₀.emailAttempts + 1,
          sentRecorded := s₀.sentRecorded }) := by
    unfold verifyPayment
    rw [if_pos hsig, hfresh]
  have hfind₁ :
      (s₀.payments ++ [completedLedgerEntry uid req s₀]).find?
        (fun p => p.transactionId = some req.rzpPaymentId)
        = some (completedLedgerEntry uid req s₀) := by
    rw [List.find?_append, hfresh]
    simp [completedLedgerEntry]
  refine ⟨by rw [e₁], ?_, ?_, ?_, ?_⟩
  · rw [e₁]
    unfold verifyPayment
    rw [if_pos hsig]
  · rw [e₁]
    unfold verifyPayment
    rw [if_pos hsig]
    simp only [hfind₁]
    rw [List.filter_append, hfilter₀]
    simp [completedLedgerEntry]
  · rw [e₁]
    unfold verifyPayment
    rw [if_pos hsig]
  · rw [e₁]
    unfold verifyPayment
    rw [if_pos hsig]
    simp [hsent]

/-- Witness for C4: a concrete double verification with a trivial HMAC
model. -/
theorem verifyPayment_idempotent_witness :
    (verifyPayment (fun m => m ++ "#sig") 7
        ⟨"ord1", "pay1", "ord1|pay1#sig"⟩
        ⟨⟨1, 7, 100, "pending", "pending", none, false⟩, [], 0, 0⟩).1 = .ok () ∧
    (verifyPayment (fun m => m ++ "#sig") 7 ⟨"ord1", "pay1", "ord1|pay1#sig"⟩
        ((verifyPayment (fun m => m ++ "#sig") 7 ⟨"ord1", "pay1", "ord1|pay1#sig"⟩
          ⟨⟨1, 7, 100, "pending", "pending", none, false⟩, [], 0, 0⟩).2)).1 = .ok () ∧
    (((verifyPayment (fun m => m ++ "#sig") 7 ⟨"ord1", "pay1", "ord1|pay1#sig"⟩
        ((verifyPayment (fun m => m ++ "#sig") 7 ⟨"ord1", "pay1", "ord1|pay1#sig"⟩
          ⟨⟨1, 7, 100, "pending", "pending", none, false⟩, [], 0, 0⟩).2)).2.payments.filter
        (fun p => p.transactionId = some "pay1")).length = 1) ∧
    ((verifyPayment (fun m => m ++ "#sig") 7 ⟨"ord1", "pay1", "ord1|pay1#sig"⟩
        ((verifyPayment (fun m => m ++ "#sig") 7 ⟨"ord1", "pay1", "ord1|pay1#sig"⟩
          ⟨⟨1, 7, 100, "pending", "pending", none, false⟩, [], 0, 0⟩).2)).2.order.paymentStatus
      = "completed") ∧
    ((verifyPayment (fun m => m ++ "#sig") 7 ⟨"ord1", "pay1", "ord1|pay1#sig"⟩
        ((verifyPayment (fun m => m ++ "#sig") 7 ⟨"ord1", "pay1", "ord1|pay1#sig"⟩
          ⟨⟨1, 7, 100, "pending", "pending", none, false⟩, [], 0, 0⟩).2)).2.sentRecorded ≤ 1) :=
  verifyPayment_idempotent (fun m => m ++ "#sig") 7 ⟨"ord1", "pay1", "ord1|pay1#sig"⟩
    ⟨⟨1, 7, 100, "pending", "pending", none, false⟩, [], 0, 0⟩
    (by decide) rfl rfl

/-- Claim C5 (signature rejection atomicity).  Whenever the supplied signature
differs from the recomputed HMAC over `gatewayOrderId + "|" +
gatewayPaymentId`, `verifyPayment` fails with the verification-failed error,
leaves the order document entirely unchanged, and appends exactly one new
ledger entry, which is `failed`. -/
theorem verifyPayment_rejects_tampered (hmac : String → String) (uid : Nat)
    (req : VerifyReq) (s : VerifyState)
    (hsig : req.rzpSignature ≠ hmac (req.rzpOrderId ++ "|" ++ req.rzpPaymentId)) :
    (verifyPayment hmac uid req s).1 = .error .verificationFailed ∧
    (verifyPayment hmac uid req s).2.order = s.order ∧
    (verifyPayment hmac uid req s).2.payments
      = s.payments ++ [failedLedgerEntry uid req s] ∧
    (failedLedgerEntry uid req s).paymentStatus = "failed" := by
  unfold verifyPayment
  simp [hsig, failedLedgerEntry]

/-- Witness for C5: a concrete tampered signature. -/
theorem verifyPayment_rejects_tampered_witness :
    (verifyPayment (fun m => m ++ "#sig") 7 ⟨"ord1", "pay1", "forged"⟩
        ⟨⟨1, 7, 100, "pending", "pending", none, false⟩, [], 0, 0⟩).1
      = .error .verificationFailed ∧
    (verifyPayment (fun m => m ++ "#sig") 7 ⟨"ord1", "pay1", "forged"⟩
        ⟨⟨1, 7, 100, "pending", "pending", none, false⟩, [], 0, 0⟩).2.order
      = ⟨1, 7, 100, "pending", "pending", none, false⟩ ∧
    (verifyPayment (fun m => m ++ "#sig") 7 ⟨"ord1", "pay1", "forged"⟩
        ⟨⟨1, 7, 100, "pending", "pending", none, false⟩, [], 0, 0⟩).2.payments
      = [] ++ [failedLedgerEntry 7 ⟨"ord1", "pay1", "forged"⟩
          ⟨⟨1, 7, 100, "pending", "pending", none, false⟩, [], 0, 0⟩] ∧
    (failedLedgerEntry 7 ⟨"ord1", "pay1", "forged"⟩
        ⟨⟨1, 7, 100, "pending", "pending", none, false⟩, [], 0, 0⟩).paymentStatus
      = "failed" :=
  verifyPayment_rejects_tampered (fun m => m ++ "#sig") 7 ⟨"ord1", "pay1", "forged"⟩
    ⟨⟨1, 7, 100, "pending", "pending", none, false⟩, [], 0, 0⟩ (by decide)

/-! ## The coupon model

The Coupon schema (second half of `src/src/models/Order.js`) stores `code`,
`discountPercentage`, `scope` (`all`/`specific`), `applicableProducts`,
`minOrderValue`, `expirationDate`, `isActive`, `usageLimit`, `usedCount`.
`createOrder` additionally reads `startDate`, `endDate`, `discountType`,
`discountValue` and `maxDiscount` — fields the schema does not define.
Mongoose strict mode strips unknown paths on save, so a persisted coupon
never carries them; they are modelled as `Option` fields that are `none` on
every schema-created document, and reading them in JavaScript yields
`undefined`. -/

/-- A coupon document.  The last five fields do not exist in the Coupon
schema (see above); a persisted document always has `none` there. -/
structure CouponDoc where
  code : String
  discountPercentage : ℚ
  scope : String
  applicableProducts : List Nat
  minOrderValue : ℚ
  expirationDate : Int
  isActive : Bool
  usageLimit : Option Int
  usedCount : Int
  startDate : Option Int
  endDate : Option Int
  discountType : Option String
  discountValue : Option ℚ
  maxDiscount : Option ℚ
  deriving DecidableEq, Repr

/-- The `isValid` method of the Coupon schema:
`isActive && expirationDate > now`. -/
def CouponDoc.isValid (c : CouponDoc) (now : Int) : Bool :=
  c.isActive && decide (now < c.expirationDate)

/-! ## Claim C8: `validateCoupon` (coupon controller, `POST /api/coupons/validate`) -/

/-- A request line item sent to `validateCoupon` (`cartItems`): a product id,
the cached unit price and the quantity. -/
structure PreviewItem where
  product : Nat
  price : ℚ
  quantity : Int
  deriving DecidableEq, Repr

/-- JavaScript `String.prototype.toUpperCase()` restricted to its ASCII
behaviour: uppercase every character. -/
def jsToUpper (s : String) : String := ⟨s.data.map Char.toUpper⟩

/-- The eligible subtotal for a `scope=specific` coupon: the sum of
`price * quantity` over the lines whose product id is listed in
`applicableProducts`. -/
def eligibleTotal (c : CouponDoc) (items : List PreviewItem) : ℚ :=
  ((items.filter (fun it => c.applicableProducts.contains it.product)).map
    (fun it => it.price * (it.quantity : ℚ))).sum

/-- `validateCoupon` (coupon controller): find the coupon by uppercased code;
`Invalid or expired coupon` when absent or `!isValid()`; minimum-order check;
`scope == 'all'` discounts the whole cart total; otherwise the eligible
subtotal, which must be nonzero (`Coupon not applicable to items in cart`).
This is the `discountAmount` the handler computes; the HTTP response rounds
it with `Math.round` (see `validateCouponResponse`). -/
def validateCouponDiscount (coupons : List CouponDoc) (code : String) (cartTotal : ℚ)
    (items : List PreviewItem) (now : Int) : Except ApiError ℚ :=
  match coupons.find? (fun c => c.code = jsToUpper code) with
  | none => .error .invalidCoupon
  | some c =>
    if c.isValid now then
      if cartTotal < c.minOrderValue then .error .minOrderNotMet
      else if c.scope = "all" then .ok (cartTotal * c.discountPercentage / 100)
      else if eligibleTotal c items = 0 then .error .couponNotApplicable
      else .ok (eligibleTotal c items * c.discountPercentage / 100)
    else .error .invalidCoupon

/-- The value in the `validateCoupon` response: `Math.round(discountAmount)`
(whole currency units). -/
def validateCouponResponse (coupons : List CouponDoc) (code : String) (cartTotal : ℚ)
    (items : List PreviewItem) (now : Int) : Except ApiError ℤ :=
  (validateCouponDiscount coupons code cartTotal items now).map jsRound

/-- Claim C8, amended.  For a valid `scope=specific` coupon whose minimum
order value is met: a cart in which no line's product id is applicable gets
the inapplicable-coupon error (never a zero discount); more generally the
error is raised exactly when the eligible subtotal is zero — which can also
happen when an applicable line is present but its `price * quantity` sums to
zero — and when the eligible subtotal is nonzero the computed discount is
`eligibleSubtotal * percentage / 100` (the response then rounds it to a whole
currency unit). -/
theorem validateCoupon_scope_isolation (coupons : List CouponDoc) (code : String)
    (cartTotal : ℚ) (items : List PreviewItem) (now : Int) (c : CouponDoc)
    (hfind : coupons.find? (fun x => x.code = jsToUpper code) = some c)
    (hvalid : c.isValid now = true)
    (hmin : ¬ cartTotal < c.minOrderValue)
    (hscope : c.scope ≠ "all") :
    ((∀ it ∈ items, c.applicableProducts.contains it.product = false) →
      validateCouponDiscount coupons code cartTotal items now = .error .couponNotApplicable) ∧
    (eligibleTotal c items = 0 →
      validateCouponDiscount coupons code cartTotal items now = .error .couponNotApplicable) ∧
    (eligibleTotal c items ≠ 0 →
      validateCouponDiscount coupons code cartTotal items now
        = .ok (eligibleTotal c items * c.discountPercentage / 100)) := by
  have hzero : (∀ it ∈ items, c.applicableProducts.contains it.product = false) →
      eligibleTotal c items = 0 := by
    intro h
    unfold eligibleTotal
    have : items.filter (fun it => c.applicableProducts.contains it.product) = [] := by
      apply List.filter_eq_nil_iff.mpr
      intro it hit
      simp only [h it hit]
      exact Bool.false_ne_true
    rw [this]
    simp
  refine ⟨?_, ?_, ?_⟩
  · intro h
    have h0 := hzero h
    unfold validateCouponDiscount
    rw [hfind]
    simp [hvalid, hmin, hscope, h0]
  · intro h0
    unfold validateCouponDiscount
    rw [hfind]
    simp [hvalid, hmin, hscope, h0]
  · intro h0
    unfold validateCouponDiscount
    rw [hfind]
    simp [hvalid, hmin, hscope, h0]

/-- The `scope=specific` coupon used by the C8 counterexample and witness:
10% on product 1 only, active, far from expiry, no minimum. -/
def specificCoupon : CouponDoc :=
  { code := "SPEC10", discountPercentage := 10, scope := "specific",
    applicableProducts := [1], minOrderValue := 0, expirationDate := 1000,
    isActive := true, usageLimit := none, usedCount := 0,
    startDate := none, endDate := none, discountType := none,
    discountValue := none, maxDiscount := none }

/-- Counterexample to claim C8 as stated: the cart holds one line that *is*
eligible (product 1 is in `applicableProducts`) but has price 0, so the
eligible subtotal is 0 and `validateCoupon` raises the inapplicable-coupon
error instead of returning the claim's
`eligibleSubtotal * percentage / 100 = 0` discount. -/
theorem validateCoupon_scope_claim_counterexample :
    specificCoupon.applicableProducts.contains 1 = true ∧
    validateCouponDiscount [specificCoupon] "spec10" 0 [⟨1, 0, 1⟩] 0
      = .error .couponNotApplicable ∧
    validateCouponDiscount [specificCoupon] "spec10" 0 [⟨1, 0, 1⟩] 0
      ≠ .ok (eligibleTotal specificCoupon [⟨1, 0, 1⟩] * specificCoupon.discountPercentage / 100) := by
  have h : validateCouponDiscount [specificCoupon] "spec10" 0 [⟨1, 0, 1⟩] 0
      = .error .couponNotApplicable := by
    have hup : jsToUpper "spec10" = "SPEC10" := by decide
    have hs : ("specific" : String) ≠ "all" := by decide
    unfold validateCouponDiscount
    rw [List.find?_cons_of_pos]
    · norm_num [specificCoupon, CouponDoc.isValid, eligibleTotal, hs]
    · simp [specificCoupon, hup]
  refine ⟨by decide, h, by simp [h]⟩

/-- Witness for C8 at a concrete input where the eligible subtotal is
nonzero: one eligible line of 200 with the 10% specific coupon. -/
theorem validateCoupon_scope_isolation_witness :
    (((∀ it ∈ [(⟨1, 200, 1⟩ : PreviewItem)],
        specificCoupon.applicableProducts.contains it.product = false) →
      validateCouponDiscount [specificCoupon] "spec10" 200 [⟨1, 200, 1⟩] 0
        = .error .couponNotApplicable) ∧
    (eligibleTotal specificCoupon [⟨1, 200, 1⟩] = 0 →
      validateCouponDiscount [specificCoupon] "spec10" 200 [⟨1, 200, 1⟩] 0
        = .error .couponNotApplicable) ∧
    (eligibleTotal specificCoupon [⟨1, 200, 1⟩] ≠ 0 →
      validateCouponDiscount [specificCoupon] "spec10" 200 [⟨1, 200, 1⟩] 0
        = .ok (eligibleTotal specificCoupon [⟨1, 200, 1⟩]
            * specificCoupon.discountPercentage / 100))) :=
  validateCoupon_scope_isolation [specificCoupon] "spec10" 200 [⟨1, 200, 1⟩] 0 specificCoupon
    (by decide)
    (by decide)
    (by norm_num [specificCoupon])
    (by decide)

/-! ## The order assembler: `createOrder` and `cancelOrder`

`createOrder` (orderController.js 18-159) walks the request items in order:
load product (404 when missing), check stock, resolve price and shipping by
role, deduct stock (variant stock floored at 0) and save the product
immediately, snapshot an order line, and accumulate subtotal and shipping.
After the loop it runs the coupon lookup, computes
`totalAmount = round2(subtotal + shipping - couponDiscount)` and persists the
order with `paymentMethod: 'razorpay'` hard-coded.

`cancelOrder` (orderController.js 323-370) rejects non-owners and the
statuses `shipped`/`delivered`/`cancelled`/`refunded`, saves the order as
`cancelled` (history appended) and only then walks the items adding the
quantities back to product and variant stock; the loaded product is
dereferenced without a null check. -/

/-- The product collection, indexed by document id.  `Function.update` is a
`save`. -/
def ProductStore := Nat → Option Product

/-- One entry of the `items` array in the `createOrder` request body. -/
structure ReqItem where
  product : Nat
  quantity : Int
  selectedSize : Option String
  selectedColor : Option String
  deriving DecidableEq, Repr

/-- A frozen order line as pushed onto `orderItems`
(orderController.js 82-92). -/
structure OrderItem where
  product : Nat
  name : String
  quantity : Int
  price : ℚ
  selectedSize : Option String
  selectedColor : Option String
  taxAmount : ℚ
  shippingAmount : ℚ
  deriving DecidableEq, Repr

/-- The status-history entries appended on every transition. -/
structure StatusEntry where
  status : String
  note : String
  deriving DecidableEq, Repr

/-- The `couponDetails` block stored on the order (orderController.js
118-122).  `discountAmount` is `none` when the JavaScript value is
`undefined`/`NaN`. -/
structure CouponDetailsDoc where
  code : String
  discountAmount : Option ℚ
  percentage : Option ℚ
  deriving DecidableEq, Repr

/-- The order document fields created by `createOrder` and used by
`cancelOrder`.  `couponDiscount` and `totalAmount` are `Option ℚ` because the
coupon branch can produce `NaN` (see `couponStep`); `none` models `NaN`. -/
structure OrderRec where
  userRef : Nat
  items : List OrderItem
  paymentMethod : String
  subtotal : ℚ
  shippingCost : ℚ
  couponDiscount : Option ℚ
  couponDetails : Option CouponDetailsDoc
  totalAmount : Option ℚ
  status : String
  paymentStatus : String
  statusHistory : List StatusEntry
  deriving DecidableEq, Repr

/-- `variants.find(v => v.colorName === col)` followed by a stock deduction
floored at 0 (orderController.js 63-68): only the first matching variant is
mutated. -/
def deductVariants (vs : List Variant) (col : String) (qty : Int) : List Variant :=
  match vs with
  | [] => []
  | v :: rest =>
    if v.colorName = col then { v with stock := max 0 (v.stock - qty) } :: rest
    else v :: deductVariants rest col qty

/-- The cancel-side counterpart (orderController.js 355-360): the first
matching variant gets the quantity added back, with no floor or cap. -/
def restoreVariants (vs : List Variant) (col : String) (qty : Int) : List Variant :=
  match vs with
  | [] => []
  | v :: rest =>
    if v.colorName = col then { v with stock := v.stock + qty } :: rest
    else v :: restoreVariants rest col qty

/-- The stock write of one `createOrder` item (orderController.js 62-69):
`stock -= qty`, plus the variant deduction when a colour was selected. -/
def deductStock (p : Product) (qty : Int) (col : Option String) : Product :=
  match col with
  | some c => { p with stock := p.stock - qty, variants := deductVariants p.variants c qty }
  | none => { p with stock := p.stock - qty }

/-- The stock write of one `cancelOrder` item (orderController.js 350-362):
`stock += qty`, plus the variant restoration when a colour was selected. -/
def restoreStock (p : Product) (qty : Int) (col : Option String) : Product :=
  match col with
  | some c => { p with stock := p.stock + qty, variants := restoreVariants p.variants c qty }
  | none => { p with stock := p.stock + qty }

/-- The per-item loop of `createOrder` (orderController.js 41-96).  Each
iteration persists its stock deduction before the next runs, so the store
updates survive a later failure (the known non-atomicity); the accumulated
order lines, subtotal and raw shipping are returned on success. -/
def processItems (role : String) (now : Int) :
    ProductStore → List ReqItem → ProductStore × Except ApiError (List OrderItem × ℚ × ℚ)
  | store, [] => (store, .ok ([], 0, 0))
  | store, it :: rest =>
    match store it.product with
    | none => (store, .error .notFound)
    | some p =>
      if p.stock < it.quantity then (store, .error .insufficientStock)
      else
        match processItems role now
            (Function.update store it.product
              (some (deductStock p it.quantity it.selectedColor))) rest with
        | (store', .error e) => (store', .error e)
        | (store', .ok (ois, sub, ship)) =>
          (store',
           .ok ({ product := it.product, name := p.name, quantity := it.quantity,
                  price := p.getCurrentPrice role now,
                  selectedSize := it.selectedSize, selectedColor := it.selectedColor,
                  taxAmount := 0,
                  shippingAmount := p.getShippingCost role * (it.quantity : ℚ) } :: ois,
                p.getCurrentPrice role now * (it.quantity : ℚ) + sub,
                p.getShippingCost role * (it.quantity : ℚ) + ship))

/-- MongoDB match semantics of `{field: {$lte: d}}` for a possibly missing
document field: a range operator never matches a document that lacks the
field.  (Mongoose is at `^7.5.0`, whose default `strictQuery = false` passes
unknown filter paths through to MongoDB unchanged.) -/
def mongoLteNow (field : Option Int) (d : Int) : Bool :=
  match field with
  | some v => decide (v ≤ d)
  | none => false

/-- MongoDB match semantics of `{field: {$gte: d}}`, as above. -/
def mongoGteNow (field : Option Int) (d : Int) : Bool :=
  match field with
  | some v => decide (d ≤ v)
  | none => false

/-- The coupon lookup of `createOrder` (orderController.js 103-108):
`findOne({ code, isActive: true, startDate: {$lte: now}, endDate: {$gte: now} })`.
`startDate`/`endDate` are not in the Coupon schema, so on schema-created
documents the two range clauses never match. -/
def couponFindQuery (coupons : List CouponDoc) (cc : String) (now : Int) : Option CouponDoc :=
  coupons.find? (fun c =>
    c.code = jsToUpper cc && c.isActive
      && mongoLteNow c.startDate now && mongoGteNow c.endDate now)

/-- The coupon block of `createOrder` (orderController.js 99-126), returning
`(couponDiscount, couponDetails, coupons')`.  `couponDiscount` is `some 0`
when no coupon applies and `none` when the JavaScript computation yields
`undefined`/`NaN` (the found-coupon branch reads `discountType`,
`discountValue` and `maxDiscount`, which schema documents do not carry). -/
def couponStep (coupons : List CouponDoc) (couponCode : Option String) (role : String)
    (now : Int) (subtotal : ℚ) : Option ℚ × Option CouponDetailsDoc × List CouponDoc :=
  match couponCode with
  | none => (some 0, none, coupons)
  | some cc =>
    if role = "reseller" then (some 0, none, coupons)
    else
      match couponFindQuery coupons cc now with
      | none => (some 0, none, coupons)
      | some coupon =>
        if coupon.minOrderValue ≤ subtotal then
          ((if coupon.discountType = some "percentage" then
              match coupon.discountValue with
              | some dv =>
                some (match coupon.maxDiscount with
                      | some md =>
                        if 0 < md then min (subtotal * dv / 100) md
                        else subtotal * dv / 100
                      | none => subtotal * dv / 100)
              | none => none
            else coupon.discountValue),
           some ⟨coupon.code,
             (if coupon.discountType = some "percentage" then
                match coupon.discountValue with
                | some dv =>
                  some (match coupon.maxDiscount with
                        | some md =>
                          if 0 < md then min (subtotal * dv / 100) md
                          else subtotal * dv / 100
                        | none => subtotal * dv / 100)
                | none => none
              else coupon.discountValue),
             (if coupon.discountType = some "percentage" then coupon.discountValue
              else some 0)⟩,
           coupons.map (fun c =>
             if c.code = coupon.code then { c with usedCount := c.usedCount + 1 } else c))
        else (some 0, none, coupons)

/-- `createOrder` (orderController.js 18-159).  COD is blocked, empty item
lists are rejected, the item loop runs, the coupon block runs for
non-resellers with a coupon code, and the order is persisted with
`paymentMethod: 'razorpay'`, `status: 'pending'`, `paymentStatus: 'pending'`
and `totalAmount = round2(subtotal + shipping - couponDiscount)`. -/
def createOrder (role : String) (now : Int) (uid : Nat) (store : ProductStore)
    (coupons : List CouponDoc) (items : List ReqItem) (paymentMethod : String)
    (couponCode : Option String) :
    ProductStore × List CouponDoc × Except ApiError OrderRec :=
  if paymentMethod = "cod" then (store, coupons, .error .codUnavailable)
  else if items.isEmpty then (store, coupons, .error .itemsRequired)
  else
    match processItems role now store items with
    | (store', .error e) => (store', coupons, .error e)
    | (store', .ok (ois, sub, ship)) =>
      (store',
       (couponStep coupons couponCode role now sub).2.2,
       .ok { userRef := uid, items := ois, paymentMethod := "razorpay",
             subtotal := sub, shippingCost := ship,
             couponDiscount := (couponStep coupons couponCode role now sub).1,
             couponDetails := (couponStep coupons couponCode role now sub).2.1,
             totalAmount := ((couponStep coupons couponCode role now sub).1).map
               (fun d => round2 (sub + ship - d)),
             status := "pending", paymentStatus := "pending", statusHistory := [] })

/-- The stock-restoration loop of `cancelOrder` (orderController.js 350-363).
The loaded product is used without a null check: a missing product raises an
unhandled `TypeError` (modelled as `nullDeref`) and aborts the loop, keeping
the restorations already persisted. -/
def restoreLoop : ProductStore → List OrderItem → ProductStore × Except ApiError Unit
  | store, [] => (store, .ok ())
  | store, it :: rest =>
    match store it.product with
    | none => (store, .error .nullDeref)
    | some p =>
      restoreLoop (Function.update store it.product
        (some (restoreStock p it.quantity it.selectedColor))) rest

/-- The order document as saved by `cancelOrder` before its restoration loop
(orderController.js 343-348): status set to `cancelled` and a history entry
appended. -/
def cancelledOrder (o : OrderRec) : OrderRec :=
  { o with status := "cancelled",
           statusHistory := o.statusHistory ++ [⟨"cancelled", "Order cancelled by user"⟩] }

/-- `cancelOrder` (orderController.js 323-370).  Owner check, status guard,
then the order is saved as `cancelled` (history appended) *before* the
restoration loop runs — so the returned order is cancelled even when the loop
aborts. -/
def cancelOrder (uid : Nat) (o : OrderRec) (store : ProductStore) :
    OrderRec × ProductStore × Except ApiError Unit :=
  if o.userRef ≠ uid then (o, store, .error .forbidden)
  else if o.status = "shipped" ∨ o.status = "delivered"
      ∨ o.status = "cancelled" ∨ o.status = "refunded" then
    (o, store, .error .cannotCancel)
  else
    (cancelledOrder o, (restoreLoop store o.items).1, (restoreLoop store o.items).2)

/-! ## Claims C10 and C6: `createOrder`'s payment method and coupon block -/

/-- Claim C10 (implicit).  Every order persisted by a successful
`createOrder` call has `paymentMethod = 'razorpay'`, whatever (non-`cod`)
payment method string the caller supplied — the controller hard-codes the
value (orderController.js 139). -/
theorem createOrder_forces_razorpay (role : String) (now : Int) (uid : Nat)
    (store : ProductStore) (coupons : List CouponDoc) (items : List ReqItem)
    (pm : String) (cc : Option String) (o : OrderRec)
    (h : (createOrder role now uid store coupons items pm cc).2.2 = .ok o) :
    o.paymentMethod = "razorpay" := by
  by_cases hpm : pm = "cod"
  · simp [createOrder, hpm] at h
  · by_cases hempty : items.isEmpty
    · simp [createOrder, hpm, hempty] at h
    · rcases hps : processItems role now store items with ⟨store', r⟩
      cases r with
      | error e => simp [createOrder, hpm, hempty, hps] at h
      | ok acc =>
        rcases acc with ⟨ois, sub, ship⟩
        simp [createOrder, hpm, hempty, hps] at h
        rw [← h]

/-- No `findOne({code, isActive, startDate: {$lte}, endDate: {$gte}})` query
can match a schema-shaped coupon store: persisted coupons carry no
`startDate`, and a `$lte` clause never matches a missing field. -/
theorem couponFindQuery_none (coupons : List CouponDoc) (cc : String) (now : Int)
    (hschema : ∀ c ∈ coupons, c.startDate = none) :
    couponFindQuery coupons cc now = none := by
  apply List.find?_eq_none.mpr
  intro c hc
  simp [hschema c hc, mongoLteNow]

/-- The coupon block of `createOrder` is inert on a schema-shaped coupon
store: discount `0`, no details, store unchanged. -/
theorem couponStep_skips (coupons : List CouponDoc) (cc : String) (role : String)
    (now : Int) (subtotal : ℚ) (hrole : role ≠ "reseller")
    (hschema : ∀ c ∈ coupons, c.startDate = none) :
    couponStep coupons (some cc) role now subtotal = (some 0, none, coupons) := by
  simp only [couponStep]
  rw [if_neg hrole, couponFindQuery_none coupons cc now hschema]

/-- Claim C6, amended.  `createOrder`'s coupon lookup filters on
`startDate`/`endDate`, fields absent from the Coupon schema, so against any
schema-shaped coupon store no coupon ever matches: a successful non-reseller
`createOrder` call carrying a coupon code applies no discount
(`couponDiscount = 0`, `totalAmount = round2(subtotal + shippingCost)`),
attaches no `couponDetails`, and leaves the coupon store — in particular
every `usedCount` — unchanged. -/
theorem createOrder_coupon_never_applies (role : String) (now : Int) (uid : Nat)
    (store : ProductStore) (coupons : List CouponDoc) (items : List ReqItem)
    (pm : String) (cc : String) (o : OrderRec)
    (hrole : role ≠ "reseller")
    (hschema : ∀ c ∈ coupons, c.startDate = none)
    (h : (createOrder role now uid store coupons items pm (some cc)).2.2 = .ok o) :
    o.couponDiscount = some 0 ∧
    o.couponDetails = none ∧
    o.totalAmount = some (round2 (o.subtotal + o.shippingCost)) ∧
    (createOrder role now uid store coupons items pm (some cc)).2.1 = coupons := by
  by_cases hpm : pm = "cod"
  · simp [createOrder, hpm] at h
  · by_cases hempty : items.isEmpty
    · simp [createOrder, hpm, hempty] at h
    · rcases hps : processItems role now store items with ⟨store', r⟩
      cases r with
      | error e => simp [createOrder, hpm, hempty, hps] at h
      | ok acc =>
        rcases acc with ⟨ois, sub, ship⟩
        have hcs := couponStep_skips coupons cc role now sub hrole hschema
        simp [createOrder, hpm, hempty, hps, hcs] at h ⊢
        rw [← h]
        refine ⟨rfl, rfl, ?_⟩
        simp [sub_zero]

/-- Coupon validity as §4.3 of the spec words it: found and active, not
expired (`now < expirationDate`), minimum order value met.  Spec-side
definition, to be compared with `createOrder`'s actual lookup. -/
def specCouponValid43 (c : CouponDoc) (now : Int) (cartTotal : ℚ) : Bool :=
  c.isActive && decide (now < c.expirationDate) && decide (c.minOrderValue ≤ cartTotal)

/-- A perfectly valid (per §4.3) schema-shaped `scope=all` coupon: 10% off,
active, unexpired, no minimum. -/
def save10 : CouponDoc :=
  { code := "SAVE10", discountPercentage := 10, scope := "all",
    applicableProducts := [], minOrderValue := 0, expirationDate := 1000,
    isActive := true, usageLimit := none, usedCount := 0,
    startDate := none, endDate := none, discountType := none,
    discountValue := none, maxDiscount := none }

/-- Counterexample to claim C6 as stated: `save10` is valid per §4.3 for a
subtotal of 100, yet `createOrder`'s coupon block yields discount 0 (not the
claimed `subtotal * percentage / 100 = 10`) and does not increment
`usedCount`. -/
theorem createOrder_coupon_claim_counterexample :
    specCouponValid43 save10 0 100 = true ∧
    couponStep [save10] (some "save10") "user" 0 100 = (some 0, none, [save10]) ∧
    (couponStep [save10] (some "save10") "user" 0 100).1
      ≠ some (100 * save10.discountPercentage / 100) ∧
    (couponStep [save10] (some "save10") "user" 0 100).2.2.map
      (fun c => c.usedCount) = [0] := by
  have hschema : ∀ c ∈ [save10], c.startDate = none := by
    intro c hc
    simp only [List.mem_singleton] at hc
    subst hc
    rfl
  have h := couponStep_skips [save10] "save10" "user" 0 100 (by decide) hschema
  refine ⟨?_, h, ?_, ?_⟩
  · norm_num [specCouponValid43, save10]
  · rw [h]
    norm_num [save10]
  · rw [h]
    rfl

/-- A plain product used by the `createOrder` witnesses: price 100, stock 5,
no discount, no variants, free shipping. -/
def basicProduct : Product :=
  { pid := 1, name := "b", price := 100, stock := 5, wholesalePrice := 0,
    discountPercentage := 0, discountStartDate := none, discountEndDate := none,
    retail := ⟨0, 0⟩, wholesale := ⟨0, 0⟩, variants := [] }

/-- A store holding only `basicProduct` under id 1. -/
def basicStore : ProductStore := fun i => if i = 1 then some basicProduct else none

/-- The order `createOrder` produces for one unit of `basicProduct` with no
effective coupon. -/
def basicOrder : OrderRec :=
  { userRef := 7, items := [⟨1, "b", 1, 100, none, none, 0, 0⟩],
    paymentMethod := "razorpay", subtotal := 100, shippingCost := 0,
    couponDiscount := some 0, couponDetails := none, totalAmount := some 100,
    status := "pending", paymentStatus := "pending", statusHistory := [] }

theorem createOrder_basic_eval :
    (createOrder "user" 0 7 basicStore [] [⟨1, 1, none, none⟩] "upi" none).2.2
      = .ok basicOrder := by
  have huser : ("user" : String) ≠ "reseller" := by decide
  have hupi : ("upi" : String) ≠ "cod" := by decide
  norm_num [createOrder, processItems, couponStep, basicStore, basicProduct, basicOrder,
    Product.getCurrentPrice, Product.finalPrice, Product.isDiscountActive,
    Product.getShippingCost, deductStock, round2, huser, hupi]

/-- Witness for C10: a caller-supplied payment method `upi` is persisted as
`razorpay`. -/
theorem createOrder_forces_razorpay_witness :
    ((createOrder "user" 0 7 basicStore [] [⟨1, 1, none, none⟩] "upi" none).2.2
      = .ok basicOrder) ∧
    basicOrder.paymentMethod = "razorpay" :=
  ⟨createOrder_basic_eval,
   createOrder_forces_razorpay "user" 0 7 basicStore [] [⟨1, 1, none, none⟩] "upi" none
     basicOrder createOrder_basic_eval⟩

theorem createOrder_coupon_eval :
    (createOrder "user" 0 7 basicStore [save10] [⟨1, 1, none, none⟩] "razorpay"
        (some "save10")).2.2 = .ok basicOrder := by
  have huser : ("user" : String) ≠ "reseller" := by decide
  have hrzp : ("razorpay" : String) ≠ "cod" := by decide
  have hschema : ∀ c ∈ [save10], c.startDate = none := by
    intro c hc
    simp only [List.mem_singleton] at hc
    subst hc
    rfl
  have hcs : ∀ subtotal : ℚ, couponStep [save10] (some "save10") "user" 0 subtotal
      = (some 0, none, [save10]) :=
    fun subtotal => couponStep_skips [save10] "save10" "user" 0 subtotal huser hschema
  norm_num [createOrder, processItems, basicStore, basicProduct, basicOrder,
    Product.getCurrentPrice, Product.finalPrice, Product.isDiscountActive,
    Product.getShippingCost, deductStock, round2, huser, hrzp, hcs]

/-- Witness for C6 (amended): a valid §4.3 coupon supplied to a concrete
successful `createOrder` call changes nothing. -/
theorem createOrder_coupon_never_applies_witness :
    ((createOrder "user" 0 7 basicStore [save10] [⟨1, 1, none, none⟩] "razorpay"
        (some "save10")).2.2 = .ok basicOrder) ∧
    (basicOrder.couponDiscount = some 0 ∧
     basicOrder.couponDetails = none ∧
     basicOrder.totalAmount = some (round2 (basicOrder.subtotal + basicOrder.shippingCost)) ∧
     (createOrder "user" 0 7 basicStore [save10] [⟨1, 1, none, none⟩] "razorpay"
        (some "save10")).2.1 = [save10]) :=
  ⟨createOrder_coupon_eval,
   createOrder_coupon_never_applies "user" 0 7 basicStore [save10] [⟨1, 1, none, none⟩]
     "razorpay" "save10" basicOrder (by decide)
     (by
       intro c hc
       simp only [List.mem_singleton] at hc
       subst hc
       rfl)
     createOrder_coupon_eval⟩

/-! ## Claims C7 and C9: cancellation

Supporting lemmas.  For any request — repeated products and colours included —
a successful `processItems` run turns the store entry of each product into the
left fold of that product's deduction steps, in request order, and
`cancelOrder`'s loop then applies the matching restoration fold.  Product
stock nets out exactly; the variant lists net out exactly when no deduction
step was floored, because restoration steps commute with each other. -/

theorem restoreLoop_frame (pid : Nat) :
    ∀ (ois : List OrderItem) (store : ProductStore),
    pid ∉ ois.map (fun oi => oi.product) →
    (restoreLoop store ois).1 pid = store pid := by
  intro ois
  induction ois with
  | nil =>
    intro store _
    rfl
  | cons oi rest ih =>
    intro store hpid
    simp only [List.map_cons, List.mem_cons, not_or] at hpid
    obtain ⟨h1, h2⟩ := hpid
    simp only [restoreLoop]
    cases hstore : store oi.product with
    | none => rfl
    | some p =>
      have hih := ih (Function.update store oi.product
          (some (restoreStock p oi.quantity oi.selectedColor))) h2
      rw [hih, Function.update_noteq h1]

theorem restoreVariants_deductVariants (col : String) (q : Int) :
    ∀ vs : List Variant,
    (∀ v, vs.find? (fun x => x.colorName = col) = some v → q ≤ v.stock) →
    restoreVariants (deductVariants vs col q) col q = vs := by
  intro vs
  induction vs with
  | nil =>
    intro _
    rfl
  | cons v rest ih =>
    intro h
    by_cases hc : v.colorName = col
    · have hv : q ≤ v.stock := h v (List.find?_cons_of_pos _ (by simp [hc]))
      simp only [deductVariants, if_pos hc, restoreVariants]
      have hs : (0 : ℤ) ⊔ (v.stock - q) + q = v.stock := by
        rw [show ((0 : ℤ) ⊔ (v.stock - q)) = max 0 (v.stock - q) from rfl]
        omega
      cases v
      simp_all
    · have hrest : ∀ v', rest.find? (fun x => x.colorName = col) = some v' → q ≤ v'.stock := by
        intro v' hv'
        apply h
        rw [List.find?_cons_of_neg _ (by simp [hc])]
        exact hv'
      simp only [deductVariants, if_neg hc, restoreVariants]
      rw [ih hrest]

/-- The variant write of one creation step, as a function of the item's
`(quantity, selectedColor)` pair: the colour branch of `deductStock`. -/
def vStepDeduct (vs : List Variant) (op : Int × Option String) : List Variant :=
  match op.2 with
  | some c => deductVariants vs c op.1
  | none => vs

/-- The variant write of one cancellation step. -/
def vStepRestore (vs : List Variant) (op : Int × Option String) : List Variant :=
  match op.2 with
  | some c => restoreVariants vs c op.1
  | none => vs

/-- The net variant effect of a sequence of creation steps. -/
def vDeduct (vs : List Variant) (ops : List (Int × Option String)) : List Variant :=
  ops.foldl vStepDeduct vs

/-- The net variant effect of a sequence of cancellation steps. -/
def vRestore (vs : List Variant) (ops : List (Int × Option String)) : List Variant :=
  ops.foldl vStepRestore vs

/-- The `(quantity, selectedColor)` pairs of the request items targeting
product `pid`, in request order — the sequence of stock writes `createOrder`
applies to that product, repeated lines included. -/
def itemOps (pid : Nat) (items : List ReqItem) : List (Int × Option String) :=
  (items.filter (fun it => it.product = pid)).map (fun it => (it.quantity, it.selectedColor))

/-- The same sequence read off the frozen order lines, as `cancelOrder`
replays it. -/
def orderOps (pid : Nat) (ois : List OrderItem) : List (Int × Option String) :=
  (ois.filter (fun oi => oi.product = pid)).map (fun oi => (oi.quantity, oi.selectedColor))

/-- A product after a sequence of creation-side stock writes. -/
def deductOps (p : Product) (ops : List (Int × Option String)) : Product :=
  ops.foldl (fun q op => deductStock q op.1 op.2) p

/-- A product after a sequence of cancellation-side stock writes. -/
def restoreOps (p : Product) (ops : List (Int × Option String)) : Product :=
  ops.foldl (fun q op => restoreStock q op.1 op.2) p

/-- No creation step was floored: at each step that targets a colour, the
first matching variant holds at least that step's quantity at that moment.
For a product ordered on a single line this says exactly that the selected
variant's pre-order stock covers the ordered quantity; colour-less steps
impose nothing. -/
def variantsSafe : List Variant → List (Int × Option String) → Prop
  | _, [] => True
  | vs, op :: rest =>
    (∀ c, op.2 = some c →
      ∀ v, vs.find? (fun x => x.colorName = c) = some v → op.1 ≤ v.stock) ∧
    variantsSafe (vStepDeduct vs op) rest

theorem itemOps_cons (pid : Nat) (it : ReqItem) (rest : List ReqItem) :
    itemOps pid (it :: rest)
      = if it.product = pid then (it.quantity, it.selectedColor) :: itemOps pid rest
        else itemOps pid rest := by
  simp [itemOps, List.filter_cons, apply_ite]

theorem orderOps_cons (pid : Nat) (oi : OrderItem) (rest : List OrderItem) :
    orderOps pid (oi :: rest)
      = if oi.product = pid then (oi.quantity, oi.selectedColor) :: orderOps pid rest
        else orderOps pid rest := by
  simp [orderOps, List.filter_cons, apply_ite]

theorem deductStock_decompose (p : Product) (q : Int) (c : Option String) :
    deductStock p q c
      = { p with stock := p.stock - q, variants := vStepDeduct p.variants (q, c) } := by
  cases c <;> rfl

theorem restoreStock_decompose (p : Product) (q : Int) (c : Option String) :
    restoreStock p q c
      = { p with stock := p.stock + q, variants := vStepRestore p.variants (q, c) } := by
  cases c <;> rfl

theorem deductOps_decompose :
    ∀ (ops : List (Int × Option String)) (p : Product),
    deductOps p ops
      = { p with stock := p.stock - (ops.map (fun op => op.1)).sum,
                 variants := vDeduct p.variants ops } := by
  intro ops
  induction ops with
  | nil =>
    intro p
    cases p
    simp [deductOps, vDeduct]
  | cons op rest ih =>
    intro p
    show deductOps (deductStock p op.1 op.2) rest = _
    rw [ih, deductStock_decompose]
    cases p
    simp [vDeduct, sub_sub]

theorem restoreOps_decompose :
    ∀ (ops : List (Int × Option String)) (p : Product),
    restoreOps p ops
      = { p with stock := p.stock + (ops.map (fun op => op.1)).sum,
                 variants := vRestore p.variants ops } := by
  intro ops
  induction ops with
  | nil =>
    intro p
    cases p
    simp [restoreOps, vRestore]
  | cons op rest ih =>
    intro p
    show restoreOps (restoreStock p op.1 op.2) rest = _
    rw [ih, restoreStock_decompose]
    cases p
    simp [vRestore, add_assoc]

theorem restoreVariants_comm (c : String) (q : Int) (c' : String) (q' : Int) :
    ∀ vs : List Variant,
    restoreVariants (restoreVariants vs c q) c' q'
      = restoreVariants (restoreVariants vs c' q') c q := by
  intro vs
  induction vs with
  | nil => rfl
  | cons v rest ih =>
    by_cases hc : v.colorName = c <;> by_cases hc' : v.colorName = c'
    · simp only [restoreVariants, if_pos hc, if_pos hc']
      have hcm : v.stock + q + q' = v.stock + q' + q := by omega
      rw [hcm]
    · simp only [restoreVariants, if_pos hc, if_neg hc']
    · simp only [restoreVariants, if_neg hc, if_pos hc']
    · simp only [restoreVariants, if_neg hc, if_neg hc']
      rw [ih]

theorem vStepRestore_comm (op op' : Int × Option String) (vs : List Variant) :
    vStepRestore (vStepRestore vs op) op' = vStepRestore (vStepRestore vs op') op := by
  rcases op with ⟨q, c⟩
  rcases op' with ⟨q', c'⟩
  cases c with
  | none => cases c' <;> rfl
  | some cs =>
    cases c' with
    | none => rfl
    | some cs' => exact restoreVariants_comm cs q cs' q' vs

theorem vRestore_step (op : Int × Option String) :
    ∀ (ops : List (Int × Option String)) (vs : List Variant),
    vRestore (vStepRestore vs op) ops = vStepRestore (vRestore vs ops) op := by
  intro ops
  induction ops with
  | nil =>
    intro vs
    rfl
  | cons op' rest ih =>
    intro vs
    show vRestore (vStepRestore (vStepRestore vs op) op') rest = _
    rw [vStepRestore_comm op op' vs]
    exact ih (vStepRestore vs op')

theorem vRestore_vDeduct :
    ∀ (ops : List (Int × Option String)) (vs : List Variant),
    variantsSafe vs ops → vRestore (vDeduct vs ops) ops = vs := by
  intro ops
  induction ops with
  | nil =>
    intro vs _
    rfl
  | cons op rest ih =>
    intro vs hsafe
    simp only [variantsSafe] at hsafe
    obtain ⟨h1, h2⟩ := hsafe
    show vRestore (vStepRestore (vDeduct (vStepDeduct vs op) rest) op) rest = vs
    rw [vRestore_step op rest (vDeduct (vStepDeduct vs op) rest), ih (vStepDeduct vs op) h2]
    rcases op with ⟨q, c⟩
    cases c with
    | none => rfl
    | some col =>
      show restoreVariants (deductVariants vs col q) col q = vs
      exact restoreVariants_deductVariants col q vs (fun v hv => h1 col rfl v hv)

theorem processItems_deducts (role : String) (now : Int) :
    ∀ (items : List ReqItem) (store s₁ : ProductStore) (ois : List OrderItem) (sub ship : ℚ),
    processItems role now store items = (s₁, .ok (ois, sub, ship)) →
    ois.map (fun oi => (oi.product, oi.quantity, oi.selectedColor))
      = items.map (fun it => (it.product, it.quantity, it.selectedColor)) ∧
    (∀ it ∈ items, (store it.product).isSome) ∧
    (∀ pid, s₁ pid = (store pid).map (fun p => deductOps p (itemOps pid items))) := by
  intro items
  induction items with
  | nil =>
    intro store s₁ ois sub ship h
    simp only [processItems, Prod.mk.injEq, Except.ok.injEq] at h
    obtain ⟨hs, hois, hsub, hship⟩ := h
    subst hs
    subst hois
    refine ⟨rfl, by simp, ?_⟩
    intro pid
    cases store pid <;> simp [itemOps, deductOps]
  | cons it rest ih =>
    intro store s₁ ois sub ship h
    simp only [processItems] at h
    cases hstore : store it.product with
    | none =>
      rw [hstore] at h
      simp at h
    | some p =>
      rw [hstore] at h
      dsimp only at h
      by_cases hq : p.stock < it.quantity
      · rw [if_pos hq] at h
        simp at h
      · rw [if_neg hq] at h
        rcases hrec : processItems role now
            (Function.update store it.product
              (some (deductStock p it.quantity it.selectedColor))) rest with ⟨s₂, r⟩
        rw [hrec] at h
        cases r with
        | error e => simp at h
        | ok acc =>
          rcases acc with ⟨ois', sub', ship'⟩
          dsimp only at h
          simp only [Prod.mk.injEq, Except.ok.injEq] at h
          obtain ⟨hs₁, hois, hsub, hship⟩ := h
          subst hs₁
          subst hois
          obtain ⟨hmap, hsome, hfin⟩ := ih _ s₂ ois' sub' ship' hrec
          refine ⟨by simp [hmap], ?_, ?_⟩
          · intro it' hit'
            rcases List.mem_cons.mp hit' with heq | hmem
            · subst heq
              rw [hstore]
              rfl
            · have hsm := hsome it' hmem
              by_cases he : it'.product = it.product
              · rw [he, hstore]
                rfl
              · rw [Function.update_noteq he] at hsm
                exact hsm
          · intro pid
            rw [hfin pid]
            by_cases he : it.product = pid
            · subst he
              rw [Function.update_same, hstore]
              simp only [Option.map_some']
              have hcons : itemOps it.product (it :: rest)
                  = (it.quantity, it.selectedColor) :: itemOps it.product rest := by
                rw [itemOps_cons, if_pos rfl]
              rw [hcons]
              rfl
            · rw [Function.update_noteq (fun hh => he hh.symm)]
              have hcons : itemOps pid (it :: rest) = itemOps pid rest := by
                rw [itemOps_cons, if_neg he]
              simp only [hcons]

theorem restoreLoop_restores :
    ∀ (ois : List OrderItem) (store : ProductStore),
    (∀ oi ∈ ois, (store oi.product).isSome) →
    (restoreLoop store ois).2 = .ok () ∧
    (∀ pid, (restoreLoop store ois).1 pid
      = (store pid).map (fun p => restoreOps p (orderOps pid ois))) := by
  intro ois
  induction ois with
  | nil =>
    intro store _
    refine ⟨rfl, ?_⟩
    intro pid
    show store pid = (store pid).map (fun p => restoreOps p (orderOps pid []))
    cases store pid <;> simp [orderOps, restoreOps]
  | cons oi rest ih =>
    intro store hall
    obtain ⟨p, hp⟩ := Option.isSome_iff_exists.mp (hall oi (List.mem_cons_self oi rest))
    have hall' : ∀ oi' ∈ rest,
        ((Function.update store oi.product
          (some (restoreStock p oi.quantity oi.selectedColor))) oi'.product).isSome := by
      intro oi' hoi'
      by_cases he : oi'.product = oi.product
      · rw [he, Function.update_same]
        rfl
      · rw [Function.update_noteq he]
        exact hall oi' (List.mem_cons_of_mem _ hoi')
    obtain ⟨hok, hfin⟩ := ih _ hall'
    have hunfold : restoreLoop store (oi :: rest)
        = restoreLoop (Function.update store oi.product
            (some (restoreStock p oi.quantity oi.selectedColor))) rest := by
      simp only [restoreLoop]
      rw [hp]
    refine ⟨by rw [hunfold]; exact hok, ?_⟩
    intro pid
    rw [hunfold, hfin pid]
    by_cases he : oi.product = pid
    · subst he
      rw [Function.update_same, hp]
      simp only [Option.map_some']
      have hcons : orderOps oi.product (oi :: rest)
          = (oi.quantity, oi.selectedColor) :: orderOps oi.product rest := by
        rw [orderOps_cons, if_pos rfl]
      rw [hcons]
      rfl
    · rw [Function.update_noteq (fun hh => he hh.symm)]
      have hcons : orderOps pid (oi :: rest) = orderOps pid rest := by
        rw [orderOps_cons, if_neg he]
      simp only [hcons]

theorem orderOps_eq_itemOps :
    ∀ (ois : List OrderItem) (items : List ReqItem),
    ois.map (fun oi => (oi.product, oi.quantity, oi.selectedColor))
      = items.map (fun it => (it.product, it.quantity, it.selectedColor)) →
    ∀ pid, orderOps pid ois = itemOps pid items := by
  intro ois
  induction ois with
  | nil =>
    intro items h pid
    cases items with
    | nil => rfl
    | cons a l => simp at h
  | cons oi rest ih =>
    intro items h pid
    cases items with
    | nil => simp at h
    | cons it items' =>
      simp only [List.map_cons, List.cons.injEq, Prod.mk.injEq] at h
      obtain ⟨⟨hprod, hq, hc⟩, htail⟩ := h
      rw [orderOps_cons, itemOps_cons, hprod, hq, hc, ih items' htail pid]

theorem map_product_eq (ois : List OrderItem) (items : List ReqItem)
    (h : ois.map (fun oi => (oi.product, oi.quantity, oi.selectedColor))
      = items.map (fun it => (it.product, it.quantity, it.selectedColor))) :
    ois.map (fun oi => oi.product) = items.map (fun it => it.product) := by
  have h1 := congrArg (List.map (fun t : Nat × Int × Option String => t.1)) h
  simpa [List.map_map, Function.comp] using h1

/-- Claim C7, amended.  For any order built by a successful `createOrder`
call — repeated products and colours included — cancelled once by its owner
while still cancellable: the cancellation succeeds, the order is saved as
cancelled, and every item's product-level stock is restored exactly
(unconditionally); that product's variant list is restored exactly *provided*
no deduction step was floored (at each step the targeted variant held at
least that step's quantity — for a single-line product this is the selected
variant's pre-order stock covering the ordered quantity).  A floored variant
ends above its pre-order value — see the counterexample.  Cancelling an order
already `shipped`/`delivered`/`cancelled`/`refunded` is rejected with the
cannot-cancel error and changes nothing. -/
theorem cancelOrder_restores_stock (role : String) (now : Int) (uid : Nat)
    (store store₁ : ProductStore) (coupons coupons₁ : List CouponDoc)
    (items : List ReqItem) (pm : String) (cc : Option String) (o : OrderRec)
    (hcreate : createOrder role now uid store coupons items pm cc
      = (store₁, coupons₁, .ok o)) :
    (cancelOrder uid o store₁).2.2 = .ok () ∧
    (cancelOrder uid o store₁).1 = cancelledOrder o ∧
    (∀ it ∈ items, ∃ p p₂,
        store it.product = some p ∧
        (cancelOrder uid o store₁).2.1 it.product = some p₂ ∧
        p₂.stock = p.stock ∧
        (variantsSafe p.variants (itemOps it.product items) → p₂.variants = p.variants)) ∧
    (∀ (o₂ : OrderRec) (u : Nat) (s : ProductStore), o₂.userRef = u →
        (o₂.status = "shipped" ∨ o₂.status = "delivered"
          ∨ o₂.status = "cancelled" ∨ o₂.status = "refunded") →
        cancelOrder u o₂ s = (o₂, s, .error .cannotCancel)) := by
  have hreject : ∀ (o₂ : OrderRec) (u : Nat) (s : ProductStore), o₂.userRef = u →
      (o₂.status = "shipped" ∨ o₂.status = "delivered"
        ∨ o₂.status = "cancelled" ∨ o₂.status = "refunded") →
      cancelOrder u o₂ s = (o₂, s, .error .cannotCancel) := by
    intro o₂ u s hu hst
    unfold cancelOrder
    rw [if_neg (by simp [hu]), if_pos hst]
  by_cases hpm : pm = "cod"
  · simp [createOrder, hpm, Prod.ext_iff] at hcreate
  · by_cases hempty : items.isEmpty
    · simp [createOrder, hpm, hempty, Prod.ext_iff] at hcreate
    · rcases hps : processItems role now store items with ⟨s', r⟩
      cases r with
      | error e => simp [createOrder, hpm, hempty, hps, Prod.ext_iff] at hcreate
      | ok acc =>
        rcases acc with ⟨ois, sub, ship⟩
        simp [createOrder, hpm, hempty, hps, Prod.mk.injEq] at hcreate
        obtain ⟨hs₁, hcoup, ho⟩ := hcreate
        subst hs₁
        subst ho
        obtain ⟨hmap, hsome, hfin⟩ :=
          processItems_deducts role now items store s' ois sub ship hps
        have hprodmap := map_product_eq ois items hmap
        have hops := orderOps_eq_itemOps ois items hmap
        have hall₁ : ∀ oi ∈ ois, (s' oi.product).isSome := by
          intro oi hoi
          have hm : oi.product ∈ items.map (fun it => it.product) := by
            rw [← hprodmap]
            exact List.mem_map_of_mem _ hoi
          obtain ⟨it, hit, hip⟩ := List.mem_map.mp hm
          rw [← hip, hfin it.product]
          obtain ⟨p, hp⟩ := Option.isSome_iff_exists.mp (hsome it hit)
          rw [hp]
          rfl
        obtain ⟨hok, hres⟩ := restoreLoop_restores ois s' hall₁
        have hcancel : cancelOrder uid
            { userRef := uid, items := ois, paymentMethod := "razorpay",
              subtotal := sub, shippingCost := ship,
              couponDiscount := (couponStep coupons cc role now sub).1,
              couponDetails := (couponStep coupons cc role now sub).2.1,
              totalAmount := ((couponStep coupons cc role now sub).1).map
                (fun d => round2 (sub + ship - d)),
              status := "pending", paymentStatus := "pending", statusHistory := [] } s'
            = (cancelledOrder
                { userRef := uid, items := ois, paymentMethod := "razorpay",
                  subtotal := sub, shippingCost := ship,
                  couponDiscount := (couponStep coupons cc role now sub).1,
                  couponDetails := (couponStep coupons cc role now sub).2.1,
                  totalAmount := ((couponStep coupons cc role now sub).1).map
                    (fun d => round2 (sub + ship - d)),
                  status := "pending", paymentStatus := "pending", statusHistory := [] },
               (restoreLoop s' ois).1, (restoreLoop s' ois).2) := by
          unfold cancelOrder
          rw [if_neg (by simp), if_neg (by dsimp only; decide)]
        refine ⟨?_, ?_, ?_, hreject⟩
        · rw [hcancel]
          exact hok
        · rw [hcancel]
        · intro it hit
          obtain ⟨p, hp⟩ := Option.isSome_iff_exists.mp (hsome it hit)
          refine ⟨p, restoreOps (deductOps p (itemOps it.product items))
            (itemOps it.product items), hp, ?_, ?_, ?_⟩
          · rw [hcancel]
            dsimp only
            rw [hres it.product, hfin it.product, hp, hops it.product]
            simp only [Option.map_some']
          · rw [restoreOps_decompose, deductOps_decompose]
            dsimp only
            omega
          · intro hsafe
            rw [restoreOps_decompose, deductOps_decompose]
            dsimp only
            exact vRestore_vDeduct (itemOps it.product items) p.variants hsafe

/-- The stock-restoration loop of `cancelOrder` stops with a null dereference
at the first item whose product is gone, keeping the restorations already
made. -/
theorem restoreLoop_missing (bad : OrderItem) (post : List OrderItem) :
    ∀ (pre : List OrderItem) (store : ProductStore),
    (∀ it ∈ pre, (store it.product).isSome) →
    store bad.product = none →
    bad.product ∉ pre.map (fun it => it.product) →
    restoreLoop store (pre ++ bad :: post) = ((restoreLoop store pre).1, .error .nullDeref) := by
  intro pre
  induction pre with
  | nil =>
    intro store _ hbad _
    simp only [List.nil_append, restoreLoop]
    rw [hbad]
  | cons it pre' ih =>
    intro store hpre hbad hnot
    simp only [List.map_cons, List.mem_cons, not_or] at hnot
    obtain ⟨hb1, hb2⟩ := hnot
    obtain ⟨p, hp⟩ := Option.isSome_iff_exists.mp (hpre it (List.mem_cons_self it pre'))
    simp only [List.cons_append, restoreLoop]
    rw [hp]
    dsimp only
    apply ih
    · intro it' hit'
      by_cases he : it'.product = it.product
      · rw [he, Function.update_same]
        rfl
      · rw [Function.update_noteq he]
        exact hpre it' (List.mem_cons_of_mem _ hit')
    · rw [Function.update_noteq hb1]
      exact hbad
    · exact hb2

/-- Claim C9 (implicit).  `cancelOrder` saves the order as `cancelled` (with
its history entry) before the restoration loop, and the loop dereferences each
loaded product without a missing-product guard: when some item's product has
been deleted, the call ends in an unhandled null dereference with the order
already persisted as cancelled, stock restored only for the items before the
missing one, and the stock of the missing item and of every item after it
(products outside the restored prefix) untouched. -/
theorem cancelOrder_partial_restore (uid : Nat) (o : OrderRec) (store : ProductStore)
    (pre : List OrderItem) (bad : OrderItem) (post : List OrderItem)
    (hitems : o.items = pre ++ bad :: post)
    (huser : o.userRef = uid)
    (hstatus : o.status = "pending")
    (hpre : ∀ it ∈ pre, (store it.product).isSome)
    (hbad : store bad.product = none)
    (hnot : bad.product ∉ pre.map (fun it => it.product)) :
    cancelOrder uid o store
      = (cancelledOrder o, (restoreLoop store pre).1, .error .nullDeref) ∧
    ∀ pid, pid ∉ pre.map (fun it => it.product) → (restoreLoop store pre).1 pid = store pid := by
  constructor
  · unfold cancelOrder
    rw [if_neg (by simp [huser]), if_neg (by rw [hstatus]; decide), hitems,
      restoreLoop_missing bad post pre store hpre hbad hnot]
  · intro pid hpid
    exact restoreLoop_frame pid pre store hpid

/-- A saree-style product with one colour variant holding stock 1, used by
the C7 counterexample and witness. -/
def variantProduct : Product :=
  { pid := 1, name := "s", price := 100, stock := 5, wholesalePrice := 0,
    discountPercentage := 0, discountStartDate := none, discountEndDate := none,
    retail := ⟨0, 0⟩, wholesale := ⟨0, 0⟩, variants := [⟨"Red", "M", 1⟩] }

/-- A store holding only `variantProduct` under id 1. -/
def variantStore : ProductStore := fun i => if i = 1 then some variantProduct else none

/-- The order `createOrder` produces for 3 units of `variantProduct` in
colour `Red`. -/
def vOrder : OrderRec :=
  { userRef := 7, items := [⟨1, "s", 3, 100, none, some "Red", 0, 0⟩],
    paymentMethod := "razorpay", subtotal := 300, shippingCost := 0,
    couponDiscount := some 0, couponDetails := none, totalAmount := some 300,
    status := "pending", paymentStatus := "pending", statusHistory := [] }

theorem createOrder_variant_eval :
    (createOrder "user" 0 7 variantStore [] [⟨1, 3, none, some "Red"⟩] "razorpay" none).2.2
      = .ok vOrder := by
  have huser : ("user" : String) ≠ "reseller" := by decide
  have hrzp : ("razorpay" : String) ≠ "cod" := by decide
  norm_num [createOrder, processItems, couponStep, variantStore, variantProduct, vOrder,
    Product.getCurrentPrice, Product.finalPrice, Product.isDiscountActive,
    Product.getShippingCost, deductStock, deductVariants, round2, huser, hrzp]

/-- Counterexample to claim C7 as stated: ordering 3 units of colour `Red`
from a variant holding stock 1 floors the variant at 0; cancelling the order
then adds the full 3 back, leaving the variant at stock 3 instead of its
pre-order value 1 (product-level stock does return to 5). -/
theorem cancelOrder_variant_claim_counterexample :
    ((createOrder "user" 0 7 variantStore [] [⟨1, 3, none, some "Red"⟩] "razorpay" none).2.2
      = .ok vOrder) ∧
    ((cancelOrder 7 vOrder
        (createOrder "user" 0 7 variantStore [] [⟨1, 3, none, some "Red"⟩] "razorpay" none).1).2.2
      = .ok ()) ∧
    (((cancelOrder 7 vOrder
        (createOrder "user" 0 7 variantStore [] [⟨1, 3, none, some "Red"⟩] "razorpay" none).1).2.1 1).map
        (fun p => p.variants) = some [⟨"Red", "M", 3⟩]) ∧
    ((variantStore 1).map (fun p => p.variants) = some [⟨"Red", "M", 1⟩]) := by
  have huser : ("user" : String) ≠ "reseller" := by decide
  have hrzp : ("razorpay" : String) ≠ "cod" := by decide
  have hguard : ¬(("pending" : String) = "shipped" ∨ ("pending" : String) = "delivered"
      ∨ ("pending" : String) = "cancelled" ∨ ("pending" : String) = "refunded") := by decide
  refine ⟨createOrder_variant_eval, ?_, ?_, by simp [variantStore, variantProduct]⟩ <;>
    norm_num [createOrder, processItems, couponStep, cancelOrder, restoreLoop, cancelledOrder,
      variantStore, variantProduct, vOrder, Product.getCurrentPrice, Product.finalPrice,
      Product.isDiscountActive, Product.getShippingCost, deductStock, deductVariants,
      restoreStock, restoreVariants, round2, huser, hrzp, hguard, Function.update_same]

/-- Witness for C7 (amended): the variant order, created and cancelled
concretely — cancellation succeeds, the order is saved as cancelled, the
rejection clause holds, and the stock clause is inhabited for the single
item. -/
theorem cancelOrder_restores_stock_witness :
    (cancelOrder 7 vOrder
        (createOrder "user" 0 7 variantStore [] [⟨1, 3, none, some "Red"⟩]
          "razorpay" none).1).2.2 = .ok () ∧
    (cancelOrder 7 vOrder
        (createOrder "user" 0 7 variantStore [] [⟨1, 3, none, some "Red"⟩]
          "razorpay" none).1).1 = cancelledOrder vOrder ∧
    (∀ it ∈ [(⟨1, 3, none, some "Red"⟩ : ReqItem)], ∃ p p₂,
        variantStore it.product = some p ∧
        (cancelOrder 7 vOrder
            (createOrder "user" 0 7 variantStore [] [⟨1, 3, none, some "Red"⟩]
              "razorpay" none).1).2.1 it.product = some p₂ ∧
        p₂.stock = p.stock ∧
        (variantsSafe p.variants
            (itemOps it.product [(⟨1, 3, none, some "Red"⟩ : ReqItem)]) →
          p₂.variants = p.variants)) ∧
    (∀ (o₂ : OrderRec) (u : Nat) (s : ProductStore), o₂.userRef = u →
        (o₂.status = "shipped" ∨ o₂.status = "delivered"
          ∨ o₂.status = "cancelled" ∨ o₂.status = "refunded") →
        cancelOrder u o₂ s = (o₂, s, .error .cannotCancel)) :=
  cancelOrder_restores_stock "user" 0 7 variantStore
    (createOrder "user" 0 7 variantStore [] [⟨1, 3, none, some "Red"⟩] "razorpay" none).1
    []
    (createOrder "user" 0 7 variantStore [] [⟨1, 3, none, some "Red"⟩] "razorpay" none).2.1
    [⟨1, 3, none, some "Red"⟩] "razorpay" none vOrder
    (Prod.ext rfl (Prod.ext rfl createOrder_variant_eval))

/-- An already-created two-item order whose second product has been deleted:
used by the C9 witness. -/
def orphanOrder : OrderRec :=
  { userRef := 7,
    items := [⟨1, "b", 1, 100, none, none, 0, 0⟩, ⟨2, "x", 1, 50, none, none, 0, 0⟩],
    paymentMethod := "razorpay", subtotal := 150, shippingCost := 0,
    couponDiscount := some 0, couponDetails := none, totalAmount := some 150,
    status := "pending", paymentStatus := "pending", statusHistory := [] }

/-- Witness for C9: cancelling `orphanOrder` against a store where product 2
is gone ends in the null-dereference error with the order already saved as
cancelled. -/
theorem cancelOrder_partial_restore_witness :
    orphanOrder.items
      = [⟨1, "b", 1, 100, none, none, 0, 0⟩] ++ ⟨2, "x", 1, 50, none, none, 0, 0⟩ :: [] ∧
    (cancelOrder 7 orphanOrder basicStore
      = (cancelledOrder orphanOrder,
         (restoreLoop basicStore [⟨1, "b", 1, 100, none, none, 0, 0⟩]).1, .error .nullDeref) ∧
     ∀ pid, pid ∉ List.map (fun it => it.product)
        [(⟨1, "b", 1, 100, none, none, 0, 0⟩ : OrderItem)] →
       (restoreLoop basicStore [(⟨1, "b", 1, 100, none, none, 0, 0⟩ : OrderItem)]).1 pid
         = basicStore pid) :=
  ⟨rfl,
   cancelOrder_partial_restore 7 orphanOrder basicStore
     [⟨1, "b", 1, 100, none, none, 0, 0⟩] ⟨2, "x", 1, 50, none, none, 0, 0⟩ []
     rfl rfl rfl
     (by
       intro it hit
       simp only [List.mem_singleton] at hit
       subst hit
       rfl)
     rfl
     (by decide)⟩

end BookstoreSpec
